import Mathlib

/-!
Verification of the multi-tenant coordination layer (session, cache, rate
limiter, tenant-connection registry, tenant-context resolver).

Every definition below is a shallow embedding of a function of the
repository, translated from the TypeScript source:

* `RateLimiter.checkRateLimit` — src/backend/src/database/seeds.ts
* `getTenantDb` and its connection cache — src/backend/src/index.ts
* `CacheService` (`buildKey`, `set`, `get`, `delete`, `exists`, `getOrSet`,
  `increment`, `decrement`) — src/unnamed/part_001
* `SessionService.getSession` / `getUserSessions` — src/backend/src/services/session.ts
* `extractTenantContext` — src/unnamed/part_000

The remote key-value store is modelled as explicit state (maps from keys to
values); `async` methods become state-passing functions; a thrown store
error is modelled by a `failing` flag on the store, matching the
try/catch structure of each method.
-/

namespace JewelerCore

/-! ## Rate limiter (src/backend/src/database/seeds.ts, class RateLimiter) -/

/-- Options of the `RateLimiter` constructor: `windowMs` and `maxRequests`. -/
structure RateLimitOptions where
  windowMs : Nat
  maxRequests : Nat
deriving DecidableEq, Repr

/-- The record returned by `checkRateLimit` / `getRateLimitStatus`. -/
structure RateLimitInfo where
  totalHits : Nat
  totalHitsPerWindow : Nat
  remainingPoints : Int
  msBeforeNext : Int
  isFirstInDuration : Bool
deriving DecidableEq, Repr

/-- The slice of redis state the rate limiter touches: integer counters
(`INCR`; a missing key counts as 0) and per-key expiries (`EXPIRE`).
`failing = true` models every redis call throwing (caught by the method's
try/catch). -/
structure RateStore where
  count : String → Nat
  expiry : String → Option Nat
  failing : Bool

/-- `rate_limit:${key}:${window}` as built in `checkRateLimit`. -/
def rateLimitKey (key : String) (window : Nat) : String :=
  "rate_limit:" ++ key ++ ":" ++ toString window

/-- Shallow embedding of `RateLimiter.checkRateLimit` (seeds.ts): computes
the window index `floor(now / windowMs)`, increments the counter at
`rate_limit:key:window`, sets the expiry to `Math.ceil(windowMs / 1000)`
iff the incremented count is 1, and returns the hit/remaining record.
The catch branch returns the permissive record and leaves state alone. -/
def checkRateLimit (opts : RateLimitOptions) (store : RateStore) (key : String)
    (now : Nat) : RateLimitInfo × RateStore :=
  if store.failing then
    ({ totalHits := 0, totalHitsPerWindow := 0,
       remainingPoints := (opts.maxRequests : Int),
       msBeforeNext := (opts.windowMs : Int),
       isFirstInDuration := true }, store)
  else
    let window := now / opts.windowMs
    let redisKey := rateLimitKey key window
    let currentCount := store.count redisKey + 1
    let store1 : RateStore :=
      { store with count := fun k => if k = redisKey then currentCount else store.count k }
    let store2 : RateStore :=
      if currentCount = 1 then
        { store1 with
          expiry := fun k =>
            if k = redisKey then some ((opts.windowMs + 999) / 1000) else store1.expiry k }
      else store1
    let windowEnd := window * opts.windowMs + opts.windowMs
    ({ totalHits := currentCount, totalHitsPerWindow := currentCount,
       remainingPoints := (opts.maxRequests : Int) - (currentCount : Int),
       msBeforeNext := (windowEnd : Int) - (now : Int),
       isFirstInDuration := currentCount == 1 }, store2)

/-- N successive `checkRateLimit` calls at the same instant (hence in the
same window), threading the store. Returns the call results in order and
the final store. -/
def checkCalls (opts : RateLimitOptions) (key : String) (now : Nat) :
    Nat → RateStore → List RateLimitInfo × RateStore
  | 0, store => ([], store)
  | n + 1, store =>
    let r := checkRateLimit opts store key now
    let rest := checkCalls opts key now n r.2
    (r.1 :: rest.1, rest.2)

/-- The record a successful (non-failing) call returns when the counter
reaches `c`. -/
def infoAt (opts : RateLimitOptions) (now c : Nat) : RateLimitInfo :=
  { totalHits := c, totalHitsPerWindow := c,
    remainingPoints := (opts.maxRequests : Int) - (c : Int),
    msBeforeNext := ((now / opts.windowMs) * opts.windowMs + opts.windowMs : Int) - (now : Int),
    isFirstInDuration := c == 1 }

theorem checkRateLimit_ok (opts : RateLimitOptions) (store : RateStore) (key : String)
    (now : Nat) (hf : store.failing = false) :
    (checkRateLimit opts store key now).1 =
      infoAt opts now (store.count (rateLimitKey key (now / opts.windowMs)) + 1) ∧
    (checkRateLimit opts store key now).2.count (rateLimitKey key (now / opts.windowMs)) =
      store.count (rateLimitKey key (now / opts.windowMs)) + 1 ∧
    (checkRateLimit opts store key now).2.failing = false := by
  simp only [checkRateLimit, hf, Bool.false_eq_true, if_false, infoAt]
  refine ⟨rfl, ?_, ?_⟩
  · by_cases h : store.count (rateLimitKey key (now / opts.windowMs)) + 1 = 1 <;>
      simp [h]
  · by_cases h : store.count (rateLimitKey key (now / opts.windowMs)) + 1 = 1 <;>
      simp [h]

theorem checkCalls_spec (opts : RateLimitOptions) (key : String) (now : Nat) :
    ∀ (n : Nat) (store : RateStore), store.failing = false →
    (checkCalls opts key now n store).1 =
      (List.range n).map
        (fun j => infoAt opts now (store.count (rateLimitKey key (now / opts.windowMs)) + j + 1)) ∧
    (checkCalls opts key now n store).2.count (rateLimitKey key (now / opts.windowMs)) =
      store.count (rateLimitKey key (now / opts.windowMs)) + n ∧
    (checkCalls opts key now n store).2.failing = false := by
  intro n
  induction n with
  | zero => intro store hf; simpa [checkCalls] using hf
  | succ m ih =>
    intro store hf
    obtain ⟨h1, h2, h3⟩ := checkRateLimit_ok opts store key now hf
    obtain ⟨ih1, ih2, ih3⟩ := ih (checkRateLimit opts store key now).2 h3
    refine ⟨?_, ?_, ?_⟩
    · simp only [checkCalls, ih1, h1, h2, List.range_succ_eq_map, List.map_cons, List.map_map]
      refine List.cons_eq_cons.mpr ⟨?_, ?_⟩
      · congr 1
      · apply List.map_congr_left
        intro j _
        simp only [Function.comp]
        congr 1
        omega
    · simp only [checkCalls, ih2, h2]; omega
    · simpa [checkCalls] using ih3

/-- Options used in the spec's concrete example scenario 1. -/
def exampleOpts : RateLimitOptions := { windowMs := 60000, maxRequests := 3 }

/-- A cold redis state: every counter 0, no expiries, store healthy. -/
def coldRate : RateStore := { count := fun _ => 0, expiry := fun _ => none, failing := false }

/-- C1: within a single window, the i-th of N `checkRateLimit(k)` calls
(1 ≤ i ≤ N) returns `totalHits = i` and `remainingPoints = maxRequests - i`;
the final counter equals N (the over-limit call's increment is still
counted); and with `maxRequests = 3`, four consecutive calls return
`remainingPoints` 2, 1, 0, -1. -/
theorem rateLimiter_monotone (opts : RateLimitOptions) (store : RateStore) (key : String)
    (now N i : Nat) (hf : store.failing = false)
    (h0 : store.count (rateLimitKey key (now / opts.windowMs)) = 0)
    (h1 : 1 ≤ i) (h2 : i ≤ N) :
    (∃ info, ((checkCalls opts key now N store).1).get? (i - 1) = some info ∧
      info.totalHits = i ∧
      info.remainingPoints = (opts.maxRequests : Int) - (i : Int)) ∧
    (checkCalls opts key now N store).2.count (rateLimitKey key (now / opts.windowMs)) = N ∧
    ((checkCalls exampleOpts "ip:1.2.3.4" 0 4 coldRate).1).map (·.remainingPoints) =
      [2, 1, 0, -1] := by
  obtain ⟨hl, hc, -⟩ := checkCalls_spec opts key now N store hf
  refine ⟨?_, by rw [hc, h0]; omega, by decide⟩
  refine ⟨infoAt opts now i, ?_, rfl, rfl⟩
  rw [hl, List.get?_map, List.get?_range (by omega)]
  have hi : store.count (rateLimitKey key (now / opts.windowMs)) + (i - 1) + 1 = i := by
    rw [h0]; omega
  simp [hi]

/-- C1 witness at concrete input. -/
theorem rateLimiter_monotone_witness :
    ∃ info, ((checkCalls exampleOpts "k" 0 2 coldRate).1).get? 0 = some info ∧
      info.totalHits = 1 ∧ info.remainingPoints = (3 : Int) - (1 : Int) :=
  (rateLimiter_monotone exampleOpts coldRate "k" 0 2 1 rfl rfl (by decide) (by decide)).1

/-- C6: when the underlying store raises (modelled by `failing = true`),
`checkRateLimit` does not propagate the error: it returns the permissive
record with `remainingPoints = maxRequests` and `isFirstInDuration = true`
(and `totalHits = 0`), leaving the store untouched. -/
theorem rateLimiter_fail_open (opts : RateLimitOptions) (store : RateStore) (key : String)
    (now : Nat) (hf : store.failing = true) :
    (checkRateLimit opts store key now).1.remainingPoints = (opts.maxRequests : Int) ∧
    (checkRateLimit opts store key now).1.isFirstInDuration = true ∧
    (checkRateLimit opts store key now).1.totalHits = 0 ∧
    (checkRateLimit opts store key now).2 = store := by
  simp [checkRateLimit, hf]

/-- A rate-limiter store whose every operation raises. -/
def downRate : RateStore := { count := fun _ => 0, expiry := fun _ => none, failing := true }

/-- C6 witness at concrete input. -/
theorem rateLimiter_fail_open_witness :
    (checkRateLimit exampleOpts downRate "k" 0).1.remainingPoints = (3 : Int) ∧
    (checkRateLimit exampleOpts downRate "k" 0).1.isFirstInDuration = true ∧
    (checkRateLimit exampleOpts downRate "k" 0).1.totalHits = 0 ∧
    (checkRateLimit exampleOpts downRate "k" 0).2 = downRate :=
  rateLimiter_fail_open exampleOpts downRate "k" 0 rfl

/-- C8: the counter's expiry is set exactly on the increment that takes the
count from 0 to 1, to `⌈windowMs / 1000⌉` seconds (the code's
`Math.ceil(windowMs / 1000)`, i.e. `(windowMs + 999) / 1000` on naturals),
no other key's expiry is touched, and a call that finds the counter
already ≥ 1 leaves the entire expiry map unchanged. -/
theorem rateLimiter_expiry_once (opts : RateLimitOptions) (store warm : RateStore)
    (key : String) (now : Nat)
    (hf : store.failing = false)
    (h0 : store.count (rateLimitKey key (now / opts.windowMs)) = 0)
    (hw : warm.failing = false)
    (h1 : 1 ≤ warm.count (rateLimitKey key (now / opts.windowMs))) :
    (checkRateLimit opts store key now).2.expiry (rateLimitKey key (now / opts.windowMs)) =
      some ((opts.windowMs + 999) / 1000) ∧
    (∀ k, k ≠ rateLimitKey key (now / opts.windowMs) →
      (checkRateLimit opts store key now).2.expiry k = store.expiry k) ∧
    (checkRateLimit opts warm key now).2.expiry = warm.expiry := by
  refine ⟨?_, ?_, ?_⟩
  · simp [checkRateLimit, hf, h0]
  · intro k hk
    simp [checkRateLimit, hf, h0, hk]
  · have hne : warm.count (rateLimitKey key (now / opts.windowMs)) + 1 ≠ 1 := by omega
    simp [checkRateLimit, hw, hne]

/-- A store already holding one hit in the window of key "k" at time 0. -/
def warmRate : RateStore :=
  { count := fun k => if k = rateLimitKey "k" 0 then 1 else 0,
    expiry := fun _ => none, failing := false }

/-- C8 witness at concrete input. -/
theorem rateLimiter_expiry_once_witness :
    (checkRateLimit exampleOpts coldRate "k" 0).2.expiry (rateLimitKey "k" 0) = some 60 ∧
    (checkRateLimit exampleOpts coldRate "k" 0).2.expiry "other" = coldRate.expiry "other" ∧
    (checkRateLimit exampleOpts warmRate "k" 0).2.expiry = warmRate.expiry := by
  obtain ⟨a, b, c⟩ :=
    rateLimiter_expiry_once exampleOpts coldRate warmRate "k" 0 rfl rfl rfl (by decide)
  exact ⟨a, b "other" (by decide), c⟩

/-! ## CacheService (src/unnamed/part_001, class CacheService) -/

/-- JSON-representable values carried through `JSON.stringify`/`JSON.parse`
in the cache. `jnull` is the JavaScript `null` value. -/
inductive JVal where
  | jnull : JVal
  | jbool : Bool → JVal
  | jnum : Int → JVal
  | jstr : String → JVal
deriving DecidableEq, Repr

/-- The slice of redis state the cache's get/set/delete/exists touch:
serialized values (modelled post-roundtrip as `JVal`) and TTLs. -/
structure CacheState where
  data : String → Option JVal
  ttl : String → Option Nat

/-- `CacheService.buildKey`: `namespace ? namespace + ":" + key : key` —
the test is JS truthiness, so a missing namespace AND the empty-string
namespace both yield the bare key. -/
def buildKey (key : String) (ns : Option String) : String :=
  match ns with
  | some n => if n = "" then key else n ++ ":" ++ key
  | none => key

/-- `CacheService.DEFAULT_TTL` (300 seconds). -/
def DEFAULT_TTL : Nat := 300

/-- `options.ttl || DEFAULT_TTL` — a 0 ttl is falsy in JS and falls back. -/
def effectiveTtl (ttlOpt : Option Nat) : Nat :=
  match ttlOpt with
  | some t => if t = 0 then DEFAULT_TTL else t
  | none => DEFAULT_TTL

/-- `CacheService.set`: `setEx(buildKey key ns, ttl, stringify value)`,
returning `true` (serialization of a `JVal` cannot throw). -/
def cacheSet (st : CacheState) (key : String) (value : JVal) (ns : Option String)
    (ttlOpt : Option Nat) : Bool × CacheState :=
  let cacheKey := buildKey key ns
  (true,
   { data := fun k => if k = cacheKey then some value else st.data k,
     ttl := fun k => if k = cacheKey then some (effectiveTtl ttlOpt) else st.ttl k })

/-- `CacheService.get`: reads `buildKey key ns`; returns the JS `null`
(here `none`) on a missing key, and `JSON.parse` of the stored string
otherwise — so a stored JSON `null` is returned as `null` too,
indistinguishable from a miss. -/
def cacheGet (st : CacheState) (key : String) (ns : Option String) : Option JVal :=
  match st.data (buildKey key ns) with
  | none => none
  | some v => if v = JVal.jnull then none else some v

/-- `CacheService.delete`: `del(buildKey key ns)`, returns whether a key
was removed. -/
def cacheDelete (st : CacheState) (key : String) (ns : Option String) : Bool × CacheState :=
  let cacheKey := buildKey key ns
  ((st.data cacheKey).isSome,
   { data := fun k => if k = cacheKey then none else st.data k,
     ttl := fun k => if k = cacheKey then none else st.ttl k })

/-- `CacheService.exists`: `exists(buildKey key ns) > 0`. -/
def cacheExists (st : CacheState) (key : String) (ns : Option String) : Bool :=
  (st.data (buildKey key ns)).isSome

/-- Result of `CacheService.getOrSet`: the returned value, the cache state
afterwards, and how many times the compute callback ran. -/
structure GetOrSetResult where
  value : JVal
  state : CacheState
  callbackCalls : Nat

/-- `CacheService.getOrSet`: `get` first; a non-null cached value is
returned without running the callback (`cached !== null`); otherwise the
callback runs once, its result is cached via `set` and returned. The
callback is pure here, its result passed as `callbackResult`. -/
def getOrSet (st : CacheState) (key : String) (callbackResult : JVal) (ns : Option String)
    (ttlOpt : Option Nat) : GetOrSetResult :=
  match cacheGet st key ns with
  | some cached => { value := cached, state := st, callbackCalls := 0 }
  | none =>
    let r := cacheSet st key callbackResult ns ttlOpt
    { value := callbackResult, state := r.2, callbackCalls := 1 }

/-- The slice of redis state `increment`/`decrement` touch: integer
counters (`INCRBY` creates a missing key at 0). `failing = true` models
every redis call throwing. -/
structure CounterStore where
  counters : String → Int
  failing : Bool

/-- `CacheService.increment`: `incrBy(buildKey key ns, amount)`; the catch
branch returns 0 and leaves state alone. -/
def cacheIncrement (st : CounterStore) (key : String) (amount : Int) (ns : Option String) :
    Int × CounterStore :=
  if st.failing then (0, st)
  else
    let cacheKey := buildKey key ns
    let result := st.counters cacheKey + amount
    (result, { st with counters := fun k => if k = cacheKey then result else st.counters k })

/-- `CacheService.decrement`: `decrBy(buildKey key ns, amount)`; the catch
branch returns 0 and leaves state alone. -/
def cacheDecrement (st : CounterStore) (key : String) (amount : Int) (ns : Option String) :
    Int × CounterStore :=
  if st.failing then (0, st)
  else
    let cacheKey := buildKey key ns
    let result := st.counters cacheKey - amount
    (result, { st with counters := fun k => if k = cacheKey then result else st.counters k })

/-- A namespace string that contains no colon (the separator `buildKey`
inserts). -/
def colonFree (s : String) : Prop := ':' ∉ s.data

instance (s : String) : Decidable (colonFree s) := by
  unfold colonFree; infer_instance

theorem append_colon_inj (l1 : List Char) : ∀ (l2 r1 r2 : List Char),
    ':' ∉ l1 → ':' ∉ l2 → l1 ++ ':' :: r1 = l2 ++ ':' :: r2 → l1 = l2 ∧ r1 = r2 := by
  induction l1 with
  | nil =>
    intro l2 r1 r2 _ h2 h
    cases l2 with
    | nil => simpa using h
    | cons c t =>
      rw [List.nil_append, List.cons_append] at h
      injection h with hc _
      exact absurd (by rw [hc]; exact List.mem_cons_self c t) h2
  | cons c t ih =>
    intro l2 r1 r2 h1 h2 h
    cases l2 with
    | nil =>
      rw [List.cons_append, List.nil_append] at h
      injection h with hc _
      exact absurd (by rw [← hc]; exact List.mem_cons_self c t) h1
    | cons c2 t2 =>
      rw [List.cons_append, List.cons_append] at h
      injection h with hc htail
      have h1t : ':' ∉ t := fun hm => h1 (List.mem_cons_of_mem _ hm)
      have h2t : ':' ∉ t2 := fun hm => h2 (List.mem_cons_of_mem _ hm)
      obtain ⟨he, hr⟩ := ih t2 r1 r2 h1t h2t htail
      exact ⟨by rw [hc, he], hr⟩

theorem buildKey_ns_inj {n1 n2 k1 k2 : String} (hn1 : n1 ≠ "") (hn2 : n2 ≠ "")
    (hc1 : colonFree n1) (hc2 : colonFree n2)
    (h : buildKey k1 (some n1) = buildKey k2 (some n2)) : n1 = n2 ∧ k1 = k2 := by
  have hd : n1.data ++ ':' :: k1.data = n2.data ++ ':' :: k2.data := by
    have hdata := congrArg String.data h
    simpa [buildKey, hn1, hn2, String.data_append] using hdata
  obtain ⟨ha, hb⟩ := append_colon_inj n1.data n2.data k1.data k2.data hc1 hc2 hd
  refine ⟨?_, ?_⟩
  · cases n1; cases n2; exact congrArg String.mk ha
  · cases k1; cases k2; exact congrArg String.mk hb

/-- C3 (amended): for two distinct NONEMPTY colon-free namespaces, cache
`set`/`delete` under one namespace never affects what `get`/`exists`
observe under the other, whatever the keys (an empty namespace is falsy
and falls back to the bare key, so it is excluded). -/
theorem cache_namespace_isolation (st : CacheState) (n1 n2 k1 k2 : String) (v : JVal)
    (ttlOpt : Option Nat) (hne : n1 ≠ n2) (hn1 : n1 ≠ "") (hn2 : n2 ≠ "")
    (hc1 : colonFree n1) (hc2 : colonFree n2) :
    cacheGet (cacheSet st k1 v (some n1) ttlOpt).2 k2 (some n2) = cacheGet st k2 (some n2) ∧
    cacheExists (cacheSet st k1 v (some n1) ttlOpt).2 k2 (some n2) = cacheExists st k2 (some n2) ∧
    cacheGet (cacheDelete st k1 (some n1)).2 k2 (some n2) = cacheGet st k2 (some n2) ∧
    cacheExists (cacheDelete st k1 (some n1)).2 k2 (some n2) = cacheExists st k2 (some n2) := by
  have hkey : buildKey k2 (some n2) ≠ buildKey k1 (some n1) := by
    intro h
    exact hne ((buildKey_ns_inj hn2 hn1 hc2 hc1 h).1.symm)
  refine ⟨?_, ?_, ?_, ?_⟩ <;>
    simp [cacheGet, cacheSet, cacheDelete, cacheExists, hkey]

/-- The empty cache: no keys present. -/
def emptyCache : CacheState := { data := fun _ => none, ttl := fun _ => none }

/-- C3 counterexample to the claim as stated: (a) an unscoped key whose
literal name collides with a namespaced effective key is NOT isolated —
writing key "k" under namespace "t1" is observed by an unscoped `get` of
"t1:k" (effective keys coincide); (b) even two distinct namespaces
collide once keys may contain colons: namespace "a" with key "b:c" and
namespace "a:b" with key "c" share one effective key; (c) the empty
namespace is falsy and yields the bare key, so a set of key "t2:x" under
namespace "" is observed by a get of key "x" under namespace "t2". -/
theorem cache_namespace_collision_counterexample :
    cacheGet (cacheSet emptyCache "k" (JVal.jstr "A") (some "t1") none).2 "t1:k" none =
      some (JVal.jstr "A") ∧
    cacheGet emptyCache "t1:k" none = none ∧
    buildKey "b:c" (some "a") = buildKey "c" (some "a:b") ∧
    cacheGet (cacheSet emptyCache "t2:x" (JVal.jstr "B") (some "") none).2 "x" (some "t2") =
      some (JVal.jstr "B") ∧
    cacheGet emptyCache "x" (some "t2") = none := by
  refine ⟨?_, rfl, by decide, ?_, rfl⟩
  · simp [cacheGet, cacheSet, buildKey, emptyCache]
  · simp [cacheGet, cacheSet, buildKey, emptyCache]

/-- C3 witness at concrete input. -/
theorem cache_namespace_isolation_witness :
    cacheGet (cacheSet emptyCache "user:1" (JVal.jstr "A") (some "t1") none).2 "user:1"
        (some "t2") = cacheGet emptyCache "user:1" (some "t2") ∧
    cacheExists (cacheSet emptyCache "user:1" (JVal.jstr "A") (some "t1") none).2 "user:1"
        (some "t2") = cacheExists emptyCache "user:1" (some "t2") :=
  ⟨(cache_namespace_isolation emptyCache "t1" "t2" "user:1" "user:1" (JVal.jstr "A") none
      (by decide) (by decide) (by decide) (by decide) (by decide)).1,
   (cache_namespace_isolation emptyCache "t1" "t2" "user:1" "user:1" (JVal.jstr "A") none
      (by decide) (by decide) (by decide) (by decide) (by decide)).2.1⟩

/-- C4 (amended): on a miss `getOrSet` runs the callback exactly once,
caches its result under the effective key and returns it; on a hit the
callback never runs and the state is untouched; and a `getOrSet(k, f)`
immediately followed by `getOrSet(k, g)` returns f's result without
invoking g PROVIDED f's result is not the JSON null — a cached null reads
back as a miss (`cached !== null`), so g would run. -/
theorem getOrSet_cache_aside (st : CacheState) (key : String) (f g : JVal)
    (ns : Option String) (ttlOpt : Option Nat) :
    (cacheGet st key ns = none →
      (getOrSet st key f ns ttlOpt).value = f ∧
      (getOrSet st key f ns ttlOpt).callbackCalls = 1 ∧
      (getOrSet st key f ns ttlOpt).state.data (buildKey key ns) = some f) ∧
    (∀ v, cacheGet st key ns = some v →
      (getOrSet st key g ns ttlOpt).value = v ∧
      (getOrSet st key g ns ttlOpt).callbackCalls = 0 ∧
      (getOrSet st key g ns ttlOpt).state = st) ∧
    (cacheGet st key ns = none → f ≠ JVal.jnull →
      (getOrSet (getOrSet st key f ns ttlOpt).state key g ns ttlOpt).value = f ∧
      (getOrSet (getOrSet st key f ns ttlOpt).state key g ns ttlOpt).callbackCalls = 0) := by
  refine ⟨?_, ?_, ?_⟩
  · intro hmiss
    simp [getOrSet, hmiss, cacheSet]
  · intro v hhit
    simp [getOrSet, hhit]
  · intro hmiss hf
    have h1 : getOrSet st key f ns ttlOpt =
        { value := f, state := (cacheSet st key f ns ttlOpt).2, callbackCalls := 1 } := by
      simp [getOrSet, hmiss]
    have h2 : cacheGet (cacheSet st key f ns ttlOpt).2 key ns = some f := by
      simp [cacheGet, cacheSet, hf]
    rw [h1]
    simp [getOrSet, h2]

/-- C4 counterexample to the claim as stated: with a callback f returning
JSON null, the chained `getOrSet(k, f); getOrSet(k, g)` DOES invoke g
(cached null reads back as a miss) and returns g's value, not f's. -/
theorem getOrSet_null_counterexample :
    (getOrSet (getOrSet emptyCache "k" JVal.jnull none none).state "k" (JVal.jbool true)
        none none).callbackCalls = 1 ∧
    (getOrSet (getOrSet emptyCache "k" JVal.jnull none none).state "k" (JVal.jbool true)
        none none).value = JVal.jbool true := by
  constructor <;> rfl

/-- C4 witness at concrete input. -/
theorem getOrSet_cache_aside_witness :
    (getOrSet emptyCache "k" (JVal.jnum 7) none none).value = JVal.jnum 7 ∧
    (getOrSet (getOrSet emptyCache "k" (JVal.jnum 7) none none).state "k" (JVal.jnum 8)
        none none).value = JVal.jnum 7 ∧
    (getOrSet (getOrSet emptyCache "k" (JVal.jnum 7) none none).state "k" (JVal.jnum 8)
        none none).callbackCalls = 0 :=
  ⟨((getOrSet_cache_aside emptyCache "k" (JVal.jnum 7) (JVal.jnum 8) none none).1 rfl).1,
   ((getOrSet_cache_aside emptyCache "k" (JVal.jnum 7) (JVal.jnum 8) none none).2.2 rfl
      (by decide)).1,
   ((getOrSet_cache_aside emptyCache "k" (JVal.jnum 7) (JVal.jnum 8) none none).2.2 rfl
      (by decide)).2⟩

/-- C10: when the underlying store raises (modelled by `failing = true`),
`increment`/`decrement` return 0 instead of raising and leave the store
untouched — and 0 is also a genuinely reachable return value (a healthy
counter standing at `-amount` increments to 0, one at `amount` decrements
to 0), so callers cannot tell a store failure from a zero counter. -/
theorem cache_counter_fail_zero (st : CounterStore) (key : String) (amount : Int)
    (ns : Option String) (hf : st.failing = true) :
    (cacheIncrement st key amount ns).1 = 0 ∧
    (cacheIncrement st key amount ns).2 = st ∧
    (cacheDecrement st key amount ns).1 = 0 ∧
    (cacheDecrement st key amount ns).2 = st ∧
    (∀ good : CounterStore, good.failing = false →
      good.counters (buildKey key ns) = -amount →
      (cacheIncrement good key amount ns).1 = 0) ∧
    (∀ good : CounterStore, good.failing = false →
      good.counters (buildKey key ns) = amount →
      (cacheDecrement good key amount ns).1 = 0) := by
  refine ⟨?_, ?_, ?_, ?_, ?_, ?_⟩
  · simp [cacheIncrement, hf]
  · simp [cacheIncrement, hf]
  · simp [cacheDecrement, hf]
  · simp [cacheDecrement, hf]
  · intro good hg hc
    simp [cacheIncrement, hg, hc]
  · intro good hg hc
    simp [cacheDecrement, hg, hc]

/-- A counter store whose every operation raises. -/
def downCounters : CounterStore := { counters := fun _ => 0, failing := true }

/-- C10 witness at concrete input. -/
theorem cache_counter_fail_zero_witness :
    (cacheIncrement downCounters "k" 5 none).1 = 0 ∧
    (cacheDecrement downCounters "k" 5 none).1 = 0 :=
  ⟨(cache_counter_fail_zero downCounters "k" 5 none rfl).1,
   (cache_counter_fail_zero downCounters "k" 5 none rfl).2.2.1⟩

/-! ## Tenant connection registry (src/backend/src/index.ts, getTenantDb) -/

/-- Tenant lifecycle status as stored in the platform database. -/
inductive TenantStatus where
  | active : TenantStatus
  | trial : TenantStatus
  | suspended : TenantStatus
  | cancelled : TenantStatus
deriving DecidableEq, Repr

/-- The fields `getTenantDb` selects from the platform database:
`{ databaseName, status }`. -/
structure TenantRecord where
  databaseName : String
  status : TenantStatus
deriving DecidableEq, Repr

/-- `tenant.status !== 'ACTIVE' && tenant.status !== 'TRIAL'` throws; the
call proceeds exactly when the status is ACTIVE or TRIAL. -/
def statusAllowed (s : TenantStatus) : Bool :=
  s == TenantStatus.active || s == TenantStatus.trial

/-- The environment `getTenantDb` runs against: the platform database
lookup and whether `$connect` succeeds for a given tenant database. -/
structure RegistryEnv where
  findTenant : String → Option TenantRecord
  connectOk : String → Bool

/-- The mutable module state of src/backend/src/index.ts:
`tenantConnections` (most recent write first), plus a fresh-handle counter
standing for `new PrismaClient(...)` and a count of connection
establishment attempts. -/
structure RegistryState where
  conns : List (String × Nat)
  nextHandle : Nat
  establishCount : Nat
deriving DecidableEq, Repr

/-- `tenantConnections.get(tenantId)` — most recent entry wins. -/
def findConn : List (String × Nat) → String → Option Nat
  | [], _ => none
  | (t, h) :: rest, tenantId => if t = tenantId then some h else findConn rest tenantId

/-- The errors `getTenantDb` throws. -/
inductive TenantDbError where
  | tenantNotFound : TenantDbError
  | tenantInactive : TenantDbError
  | connectionFailed : TenantDbError
deriving DecidableEq, Repr

/-- Shallow embedding of `getTenantDb` run by a single caller with no
interleaving: cached-handle check, platform lookup, status validation,
client creation plus `$connect` probe, and caching of the connection only
after the probe succeeds. -/
def getTenantDb (env : RegistryEnv) (st : RegistryState) (tenantId : String) :
    Except TenantDbError Nat × RegistryState :=
  match findConn st.conns tenantId with
  | some h => (Except.ok h, st)
  | none =>
    match env.findTenant tenantId with
    | none => (Except.error TenantDbError.tenantNotFound, st)
    | some t =>
      if statusAllowed t.status then
        let h := st.nextHandle
        let st1 : RegistryState :=
          { st with nextHandle := st.nextHandle + 1, establishCount := st.establishCount + 1 }
        if env.connectOk t.databaseName then
          (Except.ok h, { st1 with conns := (tenantId, h) :: st1.conns })
        else
          (Except.error TenantDbError.connectionFailed, st1)
      else (Except.error TenantDbError.tenantInactive, st)

theorem getTenantDb_error_conns (env : RegistryEnv) (st : RegistryState) (tenantId : String)
    (e : TenantDbError) (h : (getTenantDb env st tenantId).1 = Except.error e) :
    (getTenantDb env st tenantId).2.conns = st.conns ∧
    findConn st.conns tenantId = none := by
  unfold getTenantDb at h ⊢
  rcases hc : findConn st.conns tenantId with _ | hdl
  · rcases ht : env.findTenant tenantId with _ | t
    · simp [hc, ht]
    · by_cases hs : statusAllowed t.status
      · by_cases hok : env.connectOk t.databaseName
        · exfalso; simp [hc, ht, hs, hok] at h
        · simp [hc, ht, hs, hok]
      · simp [hc, ht, hs]
  · exfalso; simp [hc] at h

theorem getTenantDb_establishes (env : RegistryEnv) (st : RegistryState) (tenantId : String)
    (t : TenantRecord) (hcold : findConn st.conns tenantId = none)
    (ht : env.findTenant tenantId = some t)
    (hs : statusAllowed t.status = true)
    (hok : env.connectOk t.databaseName = true) :
    (getTenantDb env st tenantId).1 = Except.ok st.nextHandle ∧
    (getTenantDb env st tenantId).2.establishCount = st.establishCount + 1 ∧
    findConn (getTenantDb env st tenantId).2.conns tenantId = some st.nextHandle := by
  unfold getTenantDb
  simp [hcold, ht, hs, hok, findConn]

/-- C5: whenever `getTenantDb(T)` fails — tenant missing, tenant not
ACTIVE/TRIAL, or `$connect` probe failure — the `tenantConnections` map is
left exactly as it was (no broken entry is cached), and a subsequent call
for T under an environment where the tenant is now reachable retries
establishment from scratch: it performs a fresh establishment and succeeds. -/
theorem registry_not_poisoned (env env2 : RegistryEnv) (st : RegistryState)
    (tenantId : String) (e : TenantDbError) (t : TenantRecord)
    (herr : (getTenantDb env st tenantId).1 = Except.error e)
    (ht : env2.findTenant tenantId = some t)
    (hs : statusAllowed t.status = true)
    (hok : env2.connectOk t.databaseName = true) :
    (getTenantDb env st tenantId).2.conns = st.conns ∧
    (getTenantDb env2 (getTenantDb env st tenantId).2 tenantId).1 =
      Except.ok (getTenantDb env st tenantId).2.nextHandle ∧
    (getTenantDb env2 (getTenantDb env st tenantId).2 tenantId).2.establishCount =
      (getTenantDb env st tenantId).2.establishCount + 1 := by
  obtain ⟨h1, hcold⟩ := getTenantDb_error_conns env st tenantId e herr
  have hcold2 : findConn (getTenantDb env st tenantId).2.conns tenantId = none := by
    rw [h1]; exact hcold
  obtain ⟨a, b, -⟩ := getTenantDb_establishes env2 _ tenantId t hcold2 ht hs hok
  exact ⟨h1, a, b⟩

/-- A platform database with no tenants at all. -/
def unreachableEnv : RegistryEnv := { findTenant := fun _ => none, connectOk := fun _ => false }

/-- The demo tenant record used in concrete runs. -/
def demoTenant : TenantRecord := { databaseName := "tenant_db", status := TenantStatus.active }

/-- A platform database holding exactly the active tenant "tenant-x" whose
database accepts connections. -/
def demoEnv : RegistryEnv :=
  { findTenant := fun tid => if tid = "tenant-x" then some demoTenant else none,
    connectOk := fun _ => true }

/-- The registry at process start: no cached connections. -/
def coldRegistry : RegistryState := { conns := [], nextHandle := 0, establishCount := 0 }

/-- C5 witness at concrete input. -/
theorem registry_not_poisoned_witness :
    (getTenantDb unreachableEnv coldRegistry "tenant-x").2.conns = coldRegistry.conns ∧
    (getTenantDb demoEnv (getTenantDb unreachableEnv coldRegistry "tenant-x").2 "tenant-x").1 =
      Except.ok (getTenantDb unreachableEnv coldRegistry "tenant-x").2.nextHandle ∧
    (getTenantDb demoEnv (getTenantDb unreachableEnv coldRegistry "tenant-x").2
        "tenant-x").2.establishCount =
      (getTenantDb unreachableEnv coldRegistry "tenant-x").2.establishCount + 1 :=
  registry_not_poisoned unreachableEnv demoEnv coldRegistry "tenant-x"
    TenantDbError.tenantNotFound demoTenant rfl rfl rfl rfl

/-- One caller's position inside `getTenantDb`. `start` is before the
cached-handle check; `looked` is after the awaited platform lookup and
status check but before client creation, `$connect` and the map write
(the suspension on `findUnique` separates the two); `done`/`failed` are
the call's outcomes. -/
inductive CallerPhase where
  | start : CallerPhase
  | looked : TenantRecord → CallerPhase
  | done : Nat → CallerPhase
  | failed : TenantDbError → CallerPhase
deriving DecidableEq, Repr

/-- One atomic segment of `getTenantDb` executed by one caller: from
`start`, the map check plus platform lookup plus status validation; from
`looked`, client creation, the `$connect` probe and (on success) the map
write. Finished callers do not move. -/
def callerStep (env : RegistryEnv) (tenantId : String) (reg : RegistryState) :
    CallerPhase → CallerPhase × RegistryState
  | CallerPhase.start =>
    match findConn reg.conns tenantId with
    | some h => (CallerPhase.done h, reg)
    | none =>
      match env.findTenant tenantId with
      | none => (CallerPhase.failed TenantDbError.tenantNotFound, reg)
      | some t =>
        if statusAllowed t.status then (CallerPhase.looked t, reg)
        else (CallerPhase.failed TenantDbError.tenantInactive, reg)
  | CallerPhase.looked t =>
    let h := reg.nextHandle
    let reg1 : RegistryState :=
      { reg with nextHandle := reg.nextHandle + 1, establishCount := reg.establishCount + 1 }
    if env.connectOk t.databaseName then
      (CallerPhase.done h, { reg1 with conns := (tenantId, h) :: reg1.conns })
    else
      (CallerPhase.failed TenantDbError.connectionFailed, reg1)
  | CallerPhase.done h => (CallerPhase.done h, reg)
  | CallerPhase.failed e => (CallerPhase.failed e, reg)

/-- Two concurrent callers of `getTenantDb` for the same tenant id, plus
the shared module state. -/
structure TwoCallers where
  reg : RegistryState
  phaseA : CallerPhase
  phaseB : CallerPhase
deriving DecidableEq, Repr

/-- Runs the two callers under an explicit schedule: `true` steps caller
A, `false` steps caller B. -/
def runSchedule (env : RegistryEnv) (tenantId : String) :
    List Bool → TwoCallers → TwoCallers
  | [], s => s
  | b :: rest, s =>
    if b then
      let r := callerStep env tenantId s.reg s.phaseA
      runSchedule env tenantId rest { reg := r.2, phaseA := r.1, phaseB := s.phaseB }
    else
      let r := callerStep env tenantId s.reg s.phaseB
      runSchedule env tenantId rest { reg := r.2, phaseA := s.phaseA, phaseB := r.1 }

/-- Both callers cold and unstarted on a given registry state. -/
def twoCold (st : RegistryState) : TwoCallers :=
  { reg := st, phaseA := CallerPhase.start, phaseB := CallerPhase.start }

/-- C2 counterexample to the claim as stated: two concurrent
`getTenantDb("tenant-x")` calls on the cold registry, interleaved A, B, A,
B (both pass the `tenantConnections.has` check before either writes the
map), perform TWO connection establishments and end holding two different
handles — not the single-flight behaviour the claim asserts. -/
theorem registry_double_establish_counterexample :
    (runSchedule demoEnv "tenant-x" [true, false, true, false] (twoCold coldRegistry)).reg.establishCount = 2 ∧
    (runSchedule demoEnv "tenant-x" [true, false, true, false] (twoCold coldRegistry)).phaseA =
      CallerPhase.done 0 ∧
    (runSchedule demoEnv "tenant-x" [true, false, true, false] (twoCold coldRegistry)).phaseB =
      CallerPhase.done 1 := by
  refine ⟨rfl, rfl, rfl⟩

/-- C2 (amended): `getTenantDb` has no per-tenant serialization, so
concurrent cold acquires may each establish a connection (see the
counterexample); the single-establishment guarantee holds only when the
calls do not overlap: if caller A runs to completion before caller B
starts, exactly one establishment happens and both callers receive the
same handle, B served from the cache. -/
theorem registry_single_flight_sequential (env : RegistryEnv) (tenantId : String)
    (t : TenantRecord) (st : RegistryState)
    (hcold : findConn st.conns tenantId = none)
    (ht : env.findTenant tenantId = some t)
    (hs : statusAllowed t.status = true)
    (hok : env.connectOk t.databaseName = true) :
    (runSchedule env tenantId [true, true, false] (twoCold st)).reg.establishCount =
      st.establishCount + 1 ∧
    (runSchedule env tenantId [true, true, false] (twoCold st)).phaseA =
      CallerPhase.done st.nextHandle ∧
    (runSchedule env tenantId [true, true, false] (twoCold st)).phaseB =
      CallerPhase.done st.nextHandle := by
  simp [runSchedule, callerStep, twoCold, hcold, ht, hs, hok, findConn]

/-- C2 witness at concrete input. -/
theorem registry_single_flight_sequential_witness :
    (runSchedule demoEnv "tenant-x" [true, true, false] (twoCold coldRegistry)).reg.establishCount =
      coldRegistry.establishCount + 1 ∧
    (runSchedule demoEnv "tenant-x" [true, true, false] (twoCold coldRegistry)).phaseA =
      CallerPhase.done coldRegistry.nextHandle ∧
    (runSchedule demoEnv "tenant-x" [true, true, false] (twoCold coldRegistry)).phaseB =
      CallerPhase.done coldRegistry.nextHandle :=
  registry_single_flight_sequential demoEnv "tenant-x" demoTenant coldRegistry rfl rfl rfl rfl

/-! ## Session store (src/backend/src/services/session.ts, class SessionService) -/

/-- The serialized session payload (deviceInfo and twoFactorVerified are
optional in the source and irrelevant to the properties below;
`loginTime`/`lastActivity` are epoch milliseconds). -/
structure SessionData where
  userId : String
  tenantId : String
  email : String
  role : String
  loginTime : Nat
  lastActivity : Nat
deriving DecidableEq, Repr

/-- `SESSION_PREFIX + sessionId`. -/
def sessionKey (sessionId : String) : String := "session:" ++ sessionId

/-- `USER_SESSIONS_PREFIX + userId`. -/
def userSessionsKey (userId : String) : String := "user_sessions:" ++ userId

/-- The slice of redis state the session service touches: session string
keys (payload plus remaining TTL in seconds) and the per-user session-id
sets. -/
structure SessionState where
  sessions : String → Option (SessionData × Nat)
  userSets : String → List String

/-- `SessionService.getSession` with its inlined `updateLastActivity`:
reads the session key; on a hit, if more than 60000 ms have passed since
`lastActivity` the payload's stamp is refreshed and — only when the key's
remaining TTL is positive — rewritten with the same TTL. Returns the
(possibly refreshed) payload. -/
def getSession (st : SessionState) (now : Nat) (sessionId : String) :
    Option SessionData × SessionState :=
  match st.sessions (sessionKey sessionId) with
  | none => (none, st)
  | some (d, ttl) =>
    if 60000 < now - d.lastActivity then
      let d1 := { d with lastActivity := now }
      if 0 < ttl then
        (some d1,
         { st with sessions := fun k =>
             if k = sessionKey sessionId then some (d1, ttl) else st.sessions k })
      else (some d1, st)
    else (some d, st)

/-- The body of the `for (const sessionId of sessionIds)` loop of
`SessionService.getUserSessions`: each member is fetched via `getSession`;
a live session is collected, a dangling id is removed from the user's set
(`sRem`) and skipped. -/
def pruneLoop (now : Nat) (userKey : String) :
    List String → SessionState → List (String × SessionData) × SessionState
  | [], st => ([], st)
  | sid :: rest, st =>
    match (getSession st now sid).1 with
    | some d =>
      let tail1 := pruneLoop now userKey rest (getSession st now sid).2
      ((sid, d) :: tail1.1, tail1.2)
    | none =>
      let st1 := (getSession st now sid).2
      let st2 : SessionState :=
        { st1 with userSets := fun k =>
            if k = userKey then (st1.userSets k).filter (· != sid) else st1.userSets k }
      pruneLoop now userKey rest st2

/-- `SessionService.getUserSessions`: `sMembers` of the user's set, then
the pruning loop. -/
def getUserSessions (st : SessionState) (now : Nat) (userId : String) :
    List (String × SessionData) × SessionState :=
  pruneLoop now (userSessionsKey userId) (st.userSets (userSessionsKey userId)) st

theorem getSession_none_of_absent (st : SessionState) (now : Nat) (sid : String)
    (h : st.sessions (sessionKey sid) = none) :
    getSession st now sid = (none, st) := by
  unfold getSession
  rw [h]

theorem getSession_sessions_isSome (st : SessionState) (now : Nat) (sid k : String) :
    ((getSession st now sid).2.sessions k).isSome = (st.sessions k).isSome := by
  unfold getSession
  rcases hs : st.sessions (sessionKey sid) with _ | ⟨d, ttl⟩
  · rfl
  · by_cases h1 : 60000 < now - d.lastActivity
    · by_cases h2 : 0 < ttl
      · simp only [h1, if_true, h2]
        by_cases hk : k = sessionKey sid
        · subst hk; simp [hs]
        · simp [hk]
      · simp [h1, h2]
    · simp [h1]

theorem getSession_userSets (st : SessionState) (now : Nat) (sid : String) :
    (getSession st now sid).2.userSets = st.userSets := by
  unfold getSession
  rcases hs : st.sessions (sessionKey sid) with _ | ⟨d, ttl⟩
  · rfl
  · by_cases h1 : 60000 < now - d.lastActivity
    · by_cases h2 : 0 < ttl
      · simp [h1, h2]
      · simp [h1, h2]
    · simp [h1]

theorem getSession_some_present (st : SessionState) (now : Nat) (sid : String)
    (d : SessionData) (h : (getSession st now sid).1 = some d) :
    ((getSession st now sid).2.sessions (sessionKey sid)).isSome = true := by
  rw [getSession_sessions_isSome]
  rcases hs : st.sessions (sessionKey sid) with _ | p
  · rw [getSession_none_of_absent st now sid hs] at h
    cases h
  · rfl

theorem pruneLoop_sessions_isSome (now : Nat) (uk : String) :
    ∀ (L : List String) (st : SessionState) (k : String),
    ((pruneLoop now uk L st).2.sessions k).isSome = (st.sessions k).isSome := by
  intro L
  induction L with
  | nil => intro st k; rfl
  | cons sid rest ih =>
    intro st k
    rcases hg : (getSession st now sid).1 with _ | d
    · simp only [pruneLoop, hg]
      rw [ih]
      exact getSession_sessions_isSome st now sid k
    · simp only [pruneLoop, hg]
      rw [ih]
      exact getSession_sessions_isSome st now sid k

theorem pruneLoop_userSets_subset (now : Nat) (uk : String) :
    ∀ (L : List String) (st : SessionState) (k x : String),
    x ∈ (pruneLoop now uk L st).2.userSets k → x ∈ st.userSets k := by
  intro L
  induction L with
  | nil => intro st k x hx; exact hx
  | cons sid rest ih =>
    intro st k x hx
    rcases hg : (getSession st now sid).1 with _ | d
    · simp only [pruneLoop, hg] at hx
      have hx2 := ih _ k x hx
      by_cases hk : k = uk
      · subst hk
        simp only [if_pos rfl] at hx2
        have := List.mem_of_mem_filter hx2
        rw [getSession_userSets] at this
        exact this
      · simp only [if_neg hk] at hx2
        rw [getSession_userSets] at hx2
        exact hx2
    · simp only [pruneLoop, hg] at hx
      have hx2 := ih _ k x hx
      rw [getSession_userSets] at hx2
      exact hx2

theorem pruneLoop_returned_present (now : Nat) (uk : String) :
    ∀ (L : List String) (st : SessionState) (p : String × SessionData),
    p ∈ (pruneLoop now uk L st).1 →
    ((pruneLoop now uk L st).2.sessions (sessionKey p.1)).isSome = true := by
  intro L
  induction L with
  | nil => intro st p hp; cases hp
  | cons sid rest ih =>
    intro st p hp
    rcases hg : (getSession st now sid).1 with _ | d
    · simp only [pruneLoop, hg] at hp ⊢
      exact ih _ p hp
    · simp only [pruneLoop, hg, List.mem_cons] at hp ⊢
      rcases hp with hp | hp
      · subst hp
        rw [pruneLoop_sessions_isSome]
        exact getSession_some_present st now sid d hg
      · exact ih _ p hp

theorem pruneLoop_prunes (now : Nat) (uk : String) :
    ∀ (L : List String) (st : SessionState) (sid : String),
    sid ∈ L → st.sessions (sessionKey sid) = none →
    sid ∉ (pruneLoop now uk L st).2.userSets uk := by
  intro L
  induction L with
  | nil => intro st sid hmem _; cases hmem
  | cons hd rest ih =>
    intro st sid hmem habs
    by_cases heq : sid = hd
    · subst heq
      have hgs := getSession_none_of_absent st now sid habs
      have hg1 : (getSession st now sid).1 = none := by rw [hgs]
      simp only [pruneLoop, hg1]
      intro hx
      have hx2 := pruneLoop_userSets_subset now uk rest _ uk sid hx
      simp only [if_pos rfl] at hx2
      have := (List.mem_filter.mp hx2).2
      simp at this
    · have hmem2 : sid ∈ rest := by
        rcases List.mem_cons.mp hmem with h | h
        · exact absurd h heq
        · exact h
      rcases hg : (getSession st now hd).1 with _ | d
      · simp only [pruneLoop, hg]
        apply ih _ sid hmem2
        have h1 : ((getSession st now hd).2.sessions (sessionKey sid)).isSome =
            (st.sessions (sessionKey sid)).isSome := getSession_sessions_isSome st now hd _
        rw [habs] at h1
        simpa [Option.isSome_iff_exists] using
          (Option.not_isSome_iff_eq_none.mp (by simp [h1]))
      · simp only [pruneLoop, hg]
        apply ih _ sid hmem2
        have h1 : ((getSession st now hd).2.sessions (sessionKey sid)).isSome =
            (st.sessions (sessionKey sid)).isSome := getSession_sessions_isSome st now hd _
        rw [habs] at h1
        exact Option.not_isSome_iff_eq_none.mp (by simp [h1])

/-- C9: `getUserSessions(u)` returns no session id whose session data is
absent (every returned id is present in the final state), and every member
of u's set that was dangling at the start of the call (session key absent)
is gone from the set when the call returns. -/
theorem getUserSessions_consistent (st : SessionState) (now : Nat) (userId : String) :
    (∀ p ∈ (getUserSessions st now userId).1,
      ((getUserSessions st now userId).2.sessions (sessionKey p.1)).isSome = true) ∧
    (∀ sid ∈ st.userSets (userSessionsKey userId),
      st.sessions (sessionKey sid) = none →
      sid ∉ (getUserSessions st now userId).2.userSets (userSessionsKey userId)) := by
  constructor
  · intro p hp
    exact pruneLoop_returned_present now (userSessionsKey userId) _ st p hp
  · intro sid hmem habs
    exact pruneLoop_prunes now (userSessionsKey userId) _ st sid hmem habs

/-- A demo session payload. -/
def demoSession : SessionData :=
  { userId := "u", tenantId := "t", email := "a@b.com", role := "admin",
    loginTime := 0, lastActivity := 0 }

/-- A state where user "u"'s set holds a live session "s1" and a dangling
id "s2" (its session key expired but the set entry remained). -/
def demoSessionState : SessionState :=
  { sessions := fun k => if k = sessionKey "s1" then some (demoSession, 3600) else none,
    userSets := fun k => if k = userSessionsKey "u" then ["s1", "s2"] else [] }

/-- C9 witness at concrete input. -/
theorem getUserSessions_consistent_witness :
    ((getUserSessions demoSessionState 0 "u").2.sessions (sessionKey "s1")).isSome = true ∧
    "s2" ∉ (getUserSessions demoSessionState 0 "u").2.userSets (userSessionsKey "u") :=
  ⟨(getUserSessions_consistent demoSessionState 0 "u").1 ("s1", demoSession) (by decide),
   (getUserSessions_consistent demoSessionState 0 "u").2 "s2" (by decide) (by decide)⟩

/-! ## Tenant context resolver (src/unnamed/part_000, extractTenantContext) -/

/-- The request fields `extractTenantContext` reads: `req.get('host')`,
`req.get('X-Tenant-ID')`, `req.get('Authorization')`. A missing header is
`none`. -/
structure HttpRequest where
  host : Option String
  tenantIdHeader : Option String
  authorizationHeader : Option String

/-- `req.get(h) || null`: a missing or empty header value is falsy. -/
def headerOrNull : Option String → Option String
  | none => none
  | some s => if s = "" then none else some s

/-- Method 1 of `extractTenantContext`: if the host contains a dot, take
the part before the first dot; accept it unless it is empty, "www" or
"api". -/
def subdomainOf (host : String) : Option String :=
  if host.data.contains '.' then
    if String.mk (host.data.takeWhile (fun c => c != '.')) ≠ "" ∧
        String.mk (host.data.takeWhile (fun c => c != '.')) ≠ "www" ∧
        String.mk (host.data.takeWhile (fun c => c != '.')) ≠ "api" then
      some (String.mk (host.data.takeWhile (fun c => c != '.')))
    else none
  else none

/-- `if (host && host.includes('.'))` — an absent host yields nothing (and
an empty host contains no dot). -/
def tenantIdFromHost : Option String → Option String
  | none => none
  | some h => subdomainOf h

/-- Method 3 of `extractTenantContext`: a `Bearer `-prefixed Authorization
header is verified; `jwtVerify token = none` models `jwt.verify` throwing
(invalid token — resolution continues without a tenant), `some claim` a
decoded payload whose `tenantId` field is `claim` (`none` when absent). -/
def tenantIdFromAuth (jwtVerify : String → Option (Option String)) :
    Option String → Option String
  | none => none
  | some auth =>
    if auth.startsWith "Bearer " then
      match jwtVerify (auth.drop 7) with
      | some claim => claim
      | none => none
    else none

/-- The identifier-extraction part of `extractTenantContext`: method 1
(subdomain of host), then — only if still unset — method 2 (X-Tenant-ID
header), then method 3 (JWT claim); a finally-falsy identifier (none or
empty string) yields `null`. -/
def extractTenantIdentifier (jwtVerify : String → Option (Option String))
    (req : HttpRequest) : Option String :=
  let afterM1 := tenantIdFromHost req.host
  let afterM2 :=
    match afterM1 with
    | some t => some t
    | none => headerOrNull req.tenantIdHeader
  let afterM3 :=
    match afterM2 with
    | some t => some t
    | none => tenantIdFromAuth jwtVerify req.authorizationHeader
  match afterM3 with
  | some t => if t = "" then none else some t
  | none => none

/-- The tenant row `extractTenantContext` looks up once an identifier is
found (`findFirst` with `OR [{subdomain}, {id}]`). -/
structure PlatformTenant where
  id : String
  name : String
  subdomain : String
  databaseName : String
  status : TenantStatus
deriving DecidableEq, Repr

/-- `extractTenantContext`: extract an identifier; without one, return
`null` (no tenant context); with one, look the tenant up in the platform
database (`none` also models the catch branch returning `null`). -/
def extractTenantContext (jwtVerify : String → Option (Option String))
    (findFirst : String → Option PlatformTenant) (req : HttpRequest) :
    Option PlatformTenant :=
  match extractTenantIdentifier jwtVerify req with
  | none => none
  | some tid => findFirst tid

theorem subdomainOf_ne_empty {h s : String} (hs : subdomainOf h = some s) : s ≠ "" := by
  unfold subdomainOf at hs
  split at hs
  · split at hs
    · rename_i hcond
      injection hs with hs
      subst hs
      exact hcond.1
    · cases hs
  · cases hs

theorem headerOrNull_ne_empty {h : Option String} {s : String}
    (hs : headerOrNull h = some s) : s ≠ "" := by
  rcases h with _ | v
  · cases hs
  · simp only [headerOrNull] at hs
    by_cases hv : v = ""
    · rw [if_pos hv] at hs; cases hs
    · rw [if_neg hv] at hs
      injection hs with hs
      subst hs
      exact hv

/-- C7 counterexample to the claim as stated: a request carrying both an
explicit X-Tenant-ID header ("t1") and a tenant subdomain in the host
("t2.jeweler.com") resolves to the SUBDOMAIN "t2", not to the header "t1"
— the code checks the subdomain before the header, the reverse of the
claimed order. -/
theorem tenant_resolution_order_counterexample :
    extractTenantIdentifier (fun _ => none)
      { host := some "t2.jeweler.com", tenantIdHeader := some "t1",
        authorizationHeader := none } = some "t2" ∧
    extractTenantIdentifier (fun _ => none)
      { host := some "t2.jeweler.com", tenantIdHeader := some "t1",
        authorizationHeader := none } ≠ some "t1" := by
  constructor
  · decide
  · decide

/-- C7 (amended): the tenant identifier is resolved first-match-wins in
the order (1) subdomain parsed from the host, (2) explicit X-Tenant-ID
header, (3) tenant claim of a bearer token; when none yields an
identifier, the resolver returns no tenant context at all. -/
theorem tenant_resolution_order (jwtVerify : String → Option (Option String))
    (findFirst : String → Option PlatformTenant) (req : HttpRequest) :
    (∀ s, tenantIdFromHost req.host = some s →
      extractTenantIdentifier jwtVerify req = some s) ∧
    (∀ t, tenantIdFromHost req.host = none → headerOrNull req.tenantIdHeader = some t →
      extractTenantIdentifier jwtVerify req = some t) ∧
    (∀ c, tenantIdFromHost req.host = none → headerOrNull req.tenantIdHeader = none →
      tenantIdFromAuth jwtVerify req.authorizationHeader = some c →
      extractTenantIdentifier jwtVerify req = if c = "" then none else some c) ∧
    (tenantIdFromHost req.host = none → headerOrNull req.tenantIdHeader = none →
      tenantIdFromAuth jwtVerify req.authorizationHeader = none →
      extractTenantIdentifier jwtVerify req = none ∧
      extractTenantContext jwtVerify findFirst req = none) := by
  refine ⟨?_, ?_, ?_, ?_⟩
  · intro s h1
    have hne : s ≠ "" := by
      rcases hh : req.host with _ | v
      · rw [hh] at h1; cases h1
      · rw [hh] at h1; exact subdomainOf_ne_empty h1
    simp [extractTenantIdentifier, h1, hne]
  · intro t h1 h2
    have hne : t ≠ "" := headerOrNull_ne_empty h2
    simp [extractTenantIdentifier, h1, h2, hne]
  · intro c h1 h2 h3
    simp [extractTenantIdentifier, h1, h2, h3]
  · intro h1 h2 h3
    constructor
    · simp [extractTenantIdentifier, h1, h2, h3]
    · simp [extractTenantContext, extractTenantIdentifier, h1, h2, h3]

/-- C7 witness at concrete input. -/
theorem tenant_resolution_order_witness :
    extractTenantIdentifier (fun _ => none)
      { host := some "shop.jeweler.com", tenantIdHeader := some "hdr",
        authorizationHeader := none } = some "shop" ∧
    extractTenantIdentifier (fun _ => none)
      { host := some "www.jeweler.com", tenantIdHeader := some "hdr",
        authorizationHeader := none } = some "hdr" ∧
    extractTenantIdentifier (fun _ => none)
      { host := none, tenantIdHeader := none, authorizationHeader := none } = none ∧
    extractTenantContext (fun _ => none) (fun _ => none)
      { host := none, tenantIdHeader := none, authorizationHeader := none } = none := by
  refine ⟨?_, ?_, ?_, ?_⟩
  · exact (tenant_resolution_order (fun _ => none) (fun _ => none)
      { host := some "shop.jeweler.com", tenantIdHeader := some "hdr",
        authorizationHeader := none }).1 "shop" (by decide)
  · exact (tenant_resolution_order (fun _ => none) (fun _ => none)
      { host := some "www.jeweler.com", tenantIdHeader := some "hdr",
        authorizationHeader := none }).2.1 "hdr" (by decide) (by decide)
  · exact ((tenant_resolution_order (fun _ => none) (fun _ => none)
      { host := none, tenantIdHeader := none, authorizationHeader := none }).2.2.2
        rfl rfl rfl).1
  · exact ((tenant_resolution_order (fun _ => none) (fun _ => none)
      { host := none, tenantIdHeader := none, authorizationHeader := none }).2.2.2
        rfl rfl rfl).2

end JewelerCore
